import Mathlib

/-
  Verification of the notification-triage terminal application (main.go).

  Shallow embedding: Go structs become Lean structures, the Bubble Tea
  reducer `Model.Update` / `Model.handleKeyPress` become pure Lean
  functions on a `Model` value, the message union becomes an inductive
  `Msg`, and emitted `tea.Cmd` values become an inductive `Cmd`
  description of the background work.  Go `int` is embedded as `Int`
  (Go slice lengths are nonnegative but `selectedIndex` arithmetic is
  ordinary signed arithmetic).  Go `len` on strings is embedded as
  `String.length`; the byte/char distinction is immaterial to the
  length arithmetic the claims are about.  Go `error` values are
  embedded as `Option String` (the message text).
-/

/- Data model (main.go lines 17-34). `UpdatedAt time.Time` is embedded
as an opaque `Nat` tick; no claim inspects it. -/

structure Repository where
  fullName : String
deriving Repr, DecidableEq

structure Subject where
  type : String
  title : String
  url : String
deriving Repr, DecidableEq

structure Notification where
  id : String
  unread : Bool
  reason : String
  repository : Repository
  subject : Subject
  updatedAt : Nat
deriving Repr, DecidableEq

/- Display helpers (main.go lines 37-65). -/

def Notification.statusIcon (n : Notification) : String :=
  if n.unread then "●" else "○"

def Notification.typeDisplay (n : Notification) : String :=
  if n.subject.type = "PullRequest" then "pr"
  else if n.subject.type = "Issue" then "issue"
  else if n.subject.type = "Release" then "release"
  else if n.subject.type = "Discussion" then "discuss"
  else "other"

def Notification.repoName (n : Notification) : String :=
  n.repository.fullName

/- Application state (main.go lines 68-78). -/

structure Model where
  notifications : List Notification
  selectedIndex : Int
  loading : Bool
  err : Option String
  showingSummary : Bool
  summaryContent : String
  statusMessage : String
  terminalWidth : Int
  terminalHeight : Int
deriving Repr, DecidableEq

/- Messages (main.go lines 80-84 plus the Bubble Tea runtime messages
`tea.WindowSizeMsg` and `tea.KeyMsg` that `Update` handles). -/

inductive Msg where
  | windowSize (width height : Int)
  | key (k : String)
  | notificationsLoaded (items : List Notification)
  | notificationMarked (id : String)
  | errorMsg (e : String)
  | statusMsg (s : String)
deriving Repr, DecidableEq

/- Commands emitted by the reducer (main.go lines 186-214, 290):
descriptions of the background work, not its execution. -/

inductive Cmd where
  | fetchNotifications
  | markAsRead (id : String)
  | openInBrowser (n : Notification)
  | quit
deriving Repr, DecidableEq

/- initialModel (main.go lines 217-226). -/

def initialModel : Model :=
  { notifications := []
    selectedIndex := 0
    loading := true
    err := none
    showingSummary := false
    summaryContent := ""
    statusMessage := "Loading notifications..."
    terminalWidth := 80
    terminalHeight := 24 }

/- strings.Split(url, "/") (Go standard library): split around every
instance of the separator, keeping empty parts; n separators yield
n+1 parts, so the result is never the empty list. -/

def splitOnSlash : List Char → List (List Char)
  | [] => [[]]
  | c :: rest =>
      match splitOnSlash rest with
      | [] => [[]]
      | s :: ss => if c = '/' then [] :: s :: ss else (c :: s) :: ss

/- extractIssueNumber (main.go lines 155-161): split the URL on "/"
and return the last part.  `strings.Split` never returns an empty
slice, so the `len(parts) > 0` guard is always taken. -/

def extractIssueNumber (url : String) : String :=
  let parts := (splitOnSlash url.data).map String.mk
  if parts.length > 0 then parts.getLastD "" else ""

/- The browser target resolved by openInBrowser (main.go lines
163-183).  The Go function builds and runs one of three `gh`
commands; the embedding returns which command is built, with its
string arguments. -/

inductive BrowserTarget where
  | issueView (num : String) (repo : String)
  | prView (num : String) (repo : String)
  | repoView (repo : String)
deriving Repr, DecidableEq

def openInBrowser (notification : Notification) : BrowserTarget :=
  let repo := notification.repoName
  let issueNum := extractIssueNumber notification.subject.url
  if issueNum ≠ "" then
    if notification.subject.type = "Issue" then
      BrowserTarget.issueView issueNum repo
    else if notification.subject.type = "PullRequest" then
      BrowserTarget.prView issueNum repo
    else
      BrowserTarget.repoView repo
  else
    BrowserTarget.repoView repo

/- The removal loop of the notificationMarkedMsg case (main.go lines
256-268): scan left to right, remove the first notification whose ID
matches, leave everything else in order (the loop `break`s after the
first match). -/

def removeMarked (id : String) : List Notification → List Notification
  | [] => []
  | n :: rest => if n.id = id then rest else n :: removeMarked id rest

/- fmt.Sprintf("Loaded %d notifications", n) (main.go line 247). -/

def loadedMessage (n : Nat) : String :=
  "Loaded " ++ toString n ++ " notifications"

/- fmt.Sprintf("Error: %v", err) (main.go line 275). -/

def errorStatusMessage (e : String) : String :=
  "Error: " ++ e

/- Model.handleKeyPress (main.go lines 286-330). -/

def Model.handleKeyPress (m : Model) (k : String) : Model × Option Cmd :=
  if k = "q" ∨ k = "ctrl+c" then
    (m, some Cmd.quit)
  else if k = "up" ∨ k = "k" then
    (if m.selectedIndex > 0 then
      { m with selectedIndex := m.selectedIndex - 1 }
     else m, none)
  else if k = "down" ∨ k = "j" then
    (if m.selectedIndex < (m.notifications.length : Int) - 1 then
      { m with selectedIndex := m.selectedIndex + 1 }
     else m, none)
  else if k = "enter" then
    (if h : m.notifications ≠ [] ∧ 0 ≤ m.selectedIndex ∧
           m.selectedIndex < (m.notifications.length : Int) then
      (m, some (Cmd.openInBrowser (m.notifications.get
            ⟨m.selectedIndex.toNat, by omega⟩)))
     else (m, none))
  else if k = "r" then
    (if h : m.notifications ≠ [] ∧ 0 ≤ m.selectedIndex ∧
           m.selectedIndex < (m.notifications.length : Int) then
      (m, some (Cmd.markAsRead (m.notifications.get
            ⟨m.selectedIndex.toNat, by omega⟩).id))
     else (m, none))
  else if k = "f" ∨ k = "F5" then
    ({ m with loading := true,
              statusMessage := "Refreshing notifications..." },
     some Cmd.fetchNotifications)
  else if k = "tab" then
    ({ m with statusMessage := "Summary view coming soon..." }, none)
  else
    (m, none)

/- Model.Update (main.go lines 232-284).  The notificationMarkedMsg
case mirrors the Go loop: the index adjustment runs only when a match
is found, against the post-removal slice length; the status message
is set unconditionally. -/

def Model.update (m : Model) (msg : Msg) : Model × Option Cmd :=
  match msg with
  | Msg.windowSize w h =>
      ({ m with terminalWidth := w, terminalHeight := h }, none)
  | Msg.key k => m.handleKeyPress k
  | Msg.notificationsLoaded items =>
      let s1 := loadedMessage items.length
      let s2 := if items.length = 0 then "No notifications found" else s1
      ({ m with notifications := items
                loading := false
                err := none
                statusMessage := s2 }, none)
  | Msg.notificationMarked id =>
      let items2 := removeMarked id m.notifications
      let sel2 :=
        if m.notifications.any (fun n => n.id = id) then
          let a := if m.selectedIndex ≥ (items2.length : Int) ∧
                      items2.length > 0 then
                     (items2.length : Int) - 1
                   else m.selectedIndex
          if items2.length = 0 then 0 else a
        else m.selectedIndex
      ({ m with notifications := items2
                selectedIndex := sel2
                statusMessage := "Notification marked as read" }, none)
  | Msg.errorMsg e =>
      ({ m with err := some e
                loading := false
                statusMessage := errorStatusMessage e }, none)
  | Msg.statusMsg s =>
      ({ m with statusMessage := s }, none)

/- The list-window computation of Model.View (main.go lines 358-376):
visibleHeight, startIdx, endIdx.  Go integer division truncates
toward zero, which is `Int.div`. -/

def visibleRange (m : Model) : Int × Int :=
  let visibleHeight := m.terminalHeight - 8
  let len : Int := m.notifications.length
  if len > visibleHeight then
    let s0 := m.selectedIndex - Int.tdiv visibleHeight 2
    let s1 := if s0 < 0 then 0 else s0
    let e0 := s1 + visibleHeight
    if e0 > len then
      let s2 := len - visibleHeight
      let s3 := if s2 < 0 then 0 else s2
      (s3, len)
    else
      (s1, e0)
  else
    (0, len)

/- The indices of the rows the View loop renders (main.go line 378:
for i := startIdx; i < endIdx; i++). -/

def viewRows (m : Model) : List Int :=
  let r := visibleRange m
  (List.range (r.2 - r.1).toNat).map (fun k : Nat => r.1 + (k : Int))

/- The title-width computation of Model.formatNotificationLine
(main.go lines 408-411). -/

def maxTitleLen (terminalWidth : Int) : Int :=
  let v := terminalWidth - 45
  if v < 20 then 20 else v

/- The title truncation (main.go lines 413-416). -/

def truncTitle (terminalWidth : Int) (title : String) : String :=
  if (title.length : Int) > maxTitleLen terminalWidth then
    title.take (maxTitleLen terminalWidth - 3).toNat ++ "..."
  else
    title

/- The repository-name truncation (main.go lines 419-422). -/

def truncRepo (repo : String) : String :=
  if repo.length > 20 then repo.take 17 ++ "..." else repo

/- Right-pad to width w with spaces: Go fmt "%-Ns" (pads, never
truncates). -/

def padRight (w : Nat) (s : String) : String :=
  s ++ String.mk (List.replicate (w - s.length) ' ')

/- Left-pad to width 2: Go fmt "%2d" on index+1. -/

def padLeft2 (x : Int) : String :=
  let s := toString x
  String.mk (List.replicate (2 - s.length) ' ') ++ s

/- Model.formatNotificationLine (main.go lines 406-438).  The lipgloss
color styling of the status icon wraps the glyph in terminal escape
codes; it is presentation-only and embedded as the glyph itself. -/

def Model.formatNotificationLine (m : Model) (notification : Notification)
    (index : Int) : String :=
  let title := truncTitle m.terminalWidth notification.subject.title
  let repo := truncRepo notification.repoName
  let statusIcon := notification.statusIcon
  padLeft2 (index + 1) ++ " " ++ statusIcon ++ " " ++
    padRight 20 repo ++ " " ++ padRight 10 notification.typeDisplay ++
    " " ++ title

/- Concrete sample data used by witnesses. -/

def sampleNotif (i : String) : Notification :=
  { id := i
    unread := true
    reason := "subscribed"
    repository := { fullName := "octo/repo" }
    subject := { type := "Issue", title := "Fix the thing",
                 url := "https://api.github.com/repos/octo/repo/issues/42" }
    updatedAt := 0 }

/- Helper lemmas on removeMarked. -/

lemma removeMarked_length (id : String) (l : List Notification)
    (h : l.any (fun n => n.id = id) = true) :
    (removeMarked id l).length + 1 = l.length := by
  induction l with
  | nil => simp at h
  | cons n rest ih =>
      by_cases hn : n.id = id
      · simp [removeMarked, hn]
      · simp only [List.any_cons, hn] at h
        have := ih (by simpa using h)
        simp only [removeMarked, if_neg hn, List.length_cons]
        omega

lemma removeMarked_no_match (id : String) (l : List Notification)
    (h : ∀ n ∈ l, n.id ≠ id) :
    removeMarked id l = l := by
  induction l with
  | nil => rfl
  | cons n rest ih =>
      simp only [removeMarked, if_neg (h n (by simp))]
      rw [ih (fun x hx => h x (by simp [hx]))]

lemma removeMarked_append_first (id : String) (pre post : List Notification)
    (x : Notification) (hpre : ∀ n ∈ pre, n.id ≠ id) (hx : x.id = id) :
    removeMarked id (pre ++ x :: post) = pre ++ post := by
  induction pre with
  | nil => simp [removeMarked, hx]
  | cons p ps ih =>
      have h1 : (p :: ps) ++ x :: post = p :: (ps ++ x :: post) := rfl
      rw [h1]
      simp only [removeMarked, if_neg (hpre p (by simp))]
      rw [ih (fun n hn => hpre n (by simp [hn]))]
      rfl

lemma loadedMessage_ne (n : Nat) : loadedMessage n ≠ "No notifications found" := by
  intro h
  have h2 : (loadedMessage n).data = "No notifications found".data := by rw [h]
  have h3 : (loadedMessage n).data =
      "Loaded ".data ++ (toString n).data ++ " notifications".data := rfl
  rw [h3] at h2
  simp at h2

/-- Claim C4: failure events (FetchFailed, MarkReadFailed, OpenFailed all
arrive at the reducer as an errorMsg) never mutate the list: the items
slice after processing an errorMsg is exactly the items slice before, so
in particular the item targeted by a failed mark-read is not removed. -/
theorem failure_events_preserve_items (m : Model) (e : String) :
    (m.update (Msg.errorMsg e)).1.notifications = m.notifications := rfl

/-- Claim C7 counterexample: processing an errorMsg (the shape in which
MarkReadFailed and OpenFailed reach the reducer) does NOT leave `loading`
unchanged: from the initial model, where loading = true, the errorMsg
transition forces loading to false.  The claim that only lastError and
statusMessage change is therefore false. -/
theorem errorMsg_resets_loading_counterexample :
    initialModel.loading = true ∧
    (initialModel.update (Msg.errorMsg "boom")).1.loading = false := by
  exact ⟨rfl, rfl⟩

/-- Claim C7 (amended): processing a MarkReadFailed or OpenFailed event
(an errorMsg) changes only lastError, statusMessage, and loading — which
it unconditionally sets to false, since the reducer shares one errorMsg
case with FetchFailed; items, selectedIndex, the viewport dimensions,
and the summary fields are unchanged. -/
theorem errorMsg_frame (m : Model) (e : String) :
    (m.update (Msg.errorMsg e)).1.err = some e ∧
    (m.update (Msg.errorMsg e)).1.loading = false ∧
    (m.update (Msg.errorMsg e)).1.statusMessage = errorStatusMessage e ∧
    (m.update (Msg.errorMsg e)).1.notifications = m.notifications ∧
    (m.update (Msg.errorMsg e)).1.selectedIndex = m.selectedIndex ∧
    (m.update (Msg.errorMsg e)).1.terminalWidth = m.terminalWidth ∧
    (m.update (Msg.errorMsg e)).1.terminalHeight = m.terminalHeight ∧
    (m.update (Msg.errorMsg e)).1.showingSummary = m.showingSummary ∧
    (m.update (Msg.errorMsg e)).1.summaryContent = m.summaryContent := by
  refine ⟨rfl, rfl, rfl, rfl, rfl, rfl, rfl, rfl, rfl⟩

/-- Claim C6: FetchCompleted replaces items with the fetched sequence,
sets loading to false and lastError to nil, and sets statusMessage to
the count-derived text: the empty-state message for an empty sequence,
otherwise the Loaded-N message, and the two are distinct. -/
theorem fetchCompleted_replaces_items (m : Model) (items : List Notification) :
    (m.update (Msg.notificationsLoaded items)).1.notifications = items ∧
    (m.update (Msg.notificationsLoaded items)).1.loading = false ∧
    (m.update (Msg.notificationsLoaded items)).1.err = none ∧
    (m.update (Msg.notificationsLoaded items)).1.statusMessage =
      (if items.length = 0 then "No notifications found"
       else loadedMessage items.length) ∧
    (items.length ≠ 0 →
      (m.update (Msg.notificationsLoaded items)).1.statusMessage =
        loadedMessage items.length ∧
      loadedMessage items.length ≠ "No notifications found") := by
  refine ⟨rfl, rfl, rfl, rfl, fun h => ⟨?_, loadedMessage_ne items.length⟩⟩
  simp only [Model.update, if_neg h]

theorem fetchCompleted_replaces_items_witness :
    (initialModel.update (Msg.notificationsLoaded [sampleNotif "1"])).1.statusMessage =
      loadedMessage 1 ∧
    loadedMessage 1 ≠ "No notifications found" :=
  (fetchCompleted_replaces_items initialModel [sampleNotif "1"]).2.2.2.2 (by decide)

/-- Claim C2: MarkReadCompleted removes the matching item and re-clamps
selectedIndex in the same transition: from 5 items with selectedIndex 4,
marking the id of the item at index 4 yields 4 items and selectedIndex 3;
on an empty list the event leaves items empty and selectedIndex 0 (the
transition function is total, so no out-of-bounds access can occur). -/
theorem markReadCompleted_clamps_selection
    (a b c d e : Notification) (m mE : Model) (x : String)
    (h5 : m.notifications = [a, b, c, d, e]) (h4 : m.selectedIndex = 4)
    (hE : mE.notifications = []) (hE0 : mE.selectedIndex = 0) :
    ((m.update (Msg.notificationMarked e.id)).1.notifications.length = 4 ∧
     (m.update (Msg.notificationMarked e.id)).1.selectedIndex = 3) ∧
    ((mE.update (Msg.notificationMarked x)).1.notifications = [] ∧
     (mE.update (Msg.notificationMarked x)).1.selectedIndex = 0) := by
  have hany : ([a, b, c, d, e].any fun n => decide (n.id = e.id)) = true := by
    rw [List.any_eq_true]
    exact ⟨e, by simp, by simp⟩
  have hlen : (removeMarked e.id [a, b, c, d, e]).length = 4 := by
    have := removeMarked_length e.id [a, b, c, d, e] hany
    simp only [List.length_cons, List.length_nil] at this
    omega
  refine ⟨⟨?_, ?_⟩, ?_, ?_⟩
  · simp only [Model.update, h5, hlen]
  · simp only [Model.update, h5, h4, hlen, hany]
    norm_num
  · simp [Model.update, hE, removeMarked]
  · simp [Model.update, hE, hE0, removeMarked]

def mFive : Model :=
  { initialModel with
      notifications := [sampleNotif "1", sampleNotif "2", sampleNotif "3",
                        sampleNotif "4", sampleNotif "5"]
      selectedIndex := 4 }

theorem markReadCompleted_clamps_selection_witness :
    (((mFive.update (Msg.notificationMarked (sampleNotif "5").id)).1.notifications.length = 4 ∧
      (mFive.update (Msg.notificationMarked (sampleNotif "5").id)).1.selectedIndex = 3) ∧
     ((initialModel.update (Msg.notificationMarked "9")).1.notifications = [] ∧
      (initialModel.update (Msg.notificationMarked "9")).1.selectedIndex = 0)) :=
  markReadCompleted_clamps_selection (sampleNotif "1") (sampleNotif "2")
    (sampleNotif "3") (sampleNotif "4") (sampleNotif "5") mFive initialModel "9"
    rfl rfl rfl rfl

/-- Claim C9: a MarkReadCompleted whose id matches no record (with items
non-empty) leaves items, selectedIndex, loading, and lastError unchanged,
yet still sets statusMessage to the marked-as-read confirmation text. -/
theorem markReadCompleted_unknown_id (m : Model) (id : String)
    (_hne : m.notifications ≠ [])
    (hid : ∀ n ∈ m.notifications, n.id ≠ id) :
    (m.update (Msg.notificationMarked id)).1.notifications = m.notifications ∧
    (m.update (Msg.notificationMarked id)).1.selectedIndex = m.selectedIndex ∧
    (m.update (Msg.notificationMarked id)).1.loading = m.loading ∧
    (m.update (Msg.notificationMarked id)).1.err = m.err ∧
    (m.update (Msg.notificationMarked id)).1.statusMessage =
      "Notification marked as read" := by
  have hany : (m.notifications.any fun n => decide (n.id = id)) = false := by
    rw [List.any_eq_false]
    intro n hn
    simpa using hid n hn
  have hrm := removeMarked_no_match id m.notifications hid
  refine ⟨?_, ?_, rfl, rfl, rfl⟩
  · simp only [Model.update, hrm]
  · simp only [Model.update, hany]
    simp

theorem markReadCompleted_unknown_id_witness :
    (mFive.update (Msg.notificationMarked "9")).1.notifications =
      mFive.notifications ∧
    (mFive.update (Msg.notificationMarked "9")).1.selectedIndex =
      mFive.selectedIndex ∧
    (mFive.update (Msg.notificationMarked "9")).1.loading = mFive.loading ∧
    (mFive.update (Msg.notificationMarked "9")).1.err = mFive.err ∧
    (mFive.update (Msg.notificationMarked "9")).1.statusMessage =
      "Notification marked as read" :=
  markReadCompleted_unknown_id mFive "9" (by decide) (by decide)

/-- Claim C10: with duplicate ids in items, MarkReadCompleted removes
exactly the first record whose id matches; every record after it — in
particular every later duplicate — remains in items. -/
theorem markReadCompleted_removes_first_match (m : Model) (id : String)
    (pre post : List Notification) (x : Notification)
    (hm : m.notifications = pre ++ x :: post)
    (hpre : ∀ n ∈ pre, n.id ≠ id) (hx : x.id = id) :
    (m.update (Msg.notificationMarked id)).1.notifications = pre ++ post ∧
    (∀ y ∈ post, y ∈ (m.update (Msg.notificationMarked id)).1.notifications) := by
  have hrm := removeMarked_append_first id pre post x hpre hx
  constructor
  · simp only [Model.update, hm, hrm]
  · intro y hy
    simp only [Model.update, hm, hrm]
    simp [hy]

def dupA : Notification := sampleNotif "7"

def dupB : Notification :=
  { sampleNotif "7" with reason := "mention" }

def mDup : Model :=
  { initialModel with
      notifications := [sampleNotif "1", dupA, dupB, sampleNotif "3"] }

theorem markReadCompleted_removes_first_match_witness :
    (mDup.update (Msg.notificationMarked "7")).1.notifications =
      [sampleNotif "1"] ++ [dupB, sampleNotif "3"] ∧
    (∀ y ∈ [dupB, sampleNotif "3"],
      y ∈ (mDup.update (Msg.notificationMarked "7")).1.notifications) :=
  markReadCompleted_removes_first_match mDup "7" [sampleNotif "1"]
    [dupB, sampleNotif "3"] dupA rfl (by decide) (by decide)

/- The cursor invariant of the spec data model: selectedIndex is a valid
index, or 0 when the list is empty. -/

def cursorInv (m : Model) : Prop :=
  (0 ≤ m.selectedIndex ∧ m.selectedIndex < (m.notifications.length : Int)) ∨
    (m.notifications.length = 0 ∧ m.selectedIndex = 0)

instance (m : Model) : Decidable (cursorInv m) := by
  unfold cursorInv
  infer_instance

/- Fold a sequence of key events through the reducer. -/

def applyKeys (m : Model) (ks : List String) : Model :=
  ks.foldl (fun acc k => (acc.handleKeyPress k).1) m

lemma handleKeyPress_cursorInv (m : Model) (k : String) (h : cursorInv m) :
    cursorInv (m.handleKeyPress k).1 := by
  unfold Model.handleKeyPress
  unfold cursorInv at h ⊢
  split_ifs with h1 h2 h3 h4 h5 h6 h7 h8 h9 <;> simp_all <;> omega

/-- Claim C3: from any starting state satisfying the cursor invariant,
every sequence of KeyUp/KeyDown events keeps selectedIndex within
[0, len(items)-1] (or 0 when items is empty): never negative, never
≥ len(items). -/
theorem keyNav_preserves_cursorInv (m : Model) (ks : List String)
    (h : cursorInv m)
    (hk : ∀ k ∈ ks, k = "up" ∨ k = "k" ∨ k = "down" ∨ k = "j") :
    cursorInv (applyKeys m ks) := by
  induction ks generalizing m with
  | nil => exact h
  | cons k rest ih =>
      exact ih (m.handleKeyPress k).1 (handleKeyPress_cursorInv m k h)
        (fun x hx => hk x (by simp [hx]))

theorem keyNav_preserves_cursorInv_witness :
    cursorInv (applyKeys mFive ["down", "down", "up", "j", "k"]) :=
  keyNav_preserves_cursorInv mFive ["down", "down", "up", "j", "k"]
    (by decide) (by decide)

lemma strTake_length (s : String) (n : Nat) :
    (s.take n).length = min n s.length := by
  show (s.take n).data.length = _
  rw [String.data_take]
  exact List.length_take n s.data

/-- Claim C8: per-row formatting is total for every input string: the
computed maximum title width is floored at 20 even when the width
arithmetic would go below it (at viewportWidth 40 the raw value is -5,
floored to 20), every slice the truncation takes is nonnegative and in
range for the sliced string, and at viewportWidth 40 an over-long title
is truncated to the 20-column title budget. -/
theorem formatLine_total_safe (w : Int) (title repo : String) :
    20 ≤ maxTitleLen w ∧
    maxTitleLen 40 = 20 ∧
    ((title.length : Int) > maxTitleLen w →
      3 ≤ maxTitleLen w ∧ (maxTitleLen w - 3).toNat ≤ title.length) ∧
    (repo.length > 20 → 17 ≤ repo.length) ∧
    ((title.length : Int) > maxTitleLen 40 →
      (truncTitle 40 title).length = 20) := by
  have h20 : ∀ v : Int, 20 ≤ maxTitleLen v := by
    intro v
    simp only [maxTitleLen]
    split_ifs <;> omega
  have h40 : maxTitleLen 40 = 20 := by decide
  refine ⟨h20 w, h40, fun h => ⟨by have := h20 w; omega, by have := h20 w; omega⟩,
    fun h => by omega, fun h => ?_⟩
  rw [h40] at h
  unfold truncTitle
  rw [if_pos (by rw [h40]; exact h), String.length_append, h40]
  have h17 : ((20 : Int) - 3).toNat = 17 := by decide
  rw [h17, strTake_length]
  have : 17 ≤ title.length := by omega
  simp [Nat.min_eq_left this]
  decide

def longTitle : String := "a title that runs well past twenty columns"

def longRepo : String := "organization/very-long-repository"

theorem formatLine_total_safe_witness :
    (String.length longTitle : Int) > maxTitleLen 40 ∧
    (truncTitle 40 longTitle).length = 20 ∧
    longRepo.length > 20 ∧ 17 ≤ longRepo.length := by
  refine ⟨by decide, ?_, by decide, (formatLine_total_safe 40 longTitle longRepo).2.2.2.1 (by decide)⟩
  exact (formatLine_total_safe 40 longTitle longRepo).2.2.2.2 (by decide)

def issueNonNumeric : Notification :=
  { id := "2"
    unread := true
    reason := "subscribed"
    repository := { fullName := "o/r" }
    subject := { type := "Issue", title := "t",
                 url := "https://api.github.com/repos/o/r/commits/abc123" }
    updatedAt := 0 }

/-- Claim C1 counterexample: extractIssueNumber takes the final path
segment with no numeric check, so an Issue whose subjectURL ends in the
non-numeric segment "abc123" resolves to the issue-view target with
identifier "abc123" — it does NOT fall back to the repository-view
target, contradicting the claim's fallback rule for non-numeric final
segments. -/
theorem openInBrowser_nonNumeric_counterexample :
    openInBrowser issueNonNumeric = BrowserTarget.issueView "abc123" "o/r" ∧
    openInBrowser issueNonNumeric ≠ BrowserTarget.repoView "o/r" := by
  exact ⟨by decide, by decide⟩

/-- Claim C1 (amended): openInBrowser resolves its target from
subjectType and the trailing path segment of subjectURL: a record with
subjectType "Issue" and a non-empty trailing segment (such as "42" for a
subjectURL ending in "/42") resolves to the issue-view target with that
segment as identifier, analogously pr-view for "PullRequest"; and it
falls back to the repository-view target exactly when the trailing
segment is the empty string (URL empty or ending in "/") or the
subjectType is neither "Issue" nor "PullRequest" — a non-empty
non-numeric segment does not trigger the fallback. -/
theorem openInBrowser_target_characterization (n : Notification) :
    (extractIssueNumber n.subject.url ≠ "" → n.subject.type = "Issue" →
      openInBrowser n =
        BrowserTarget.issueView (extractIssueNumber n.subject.url) n.repoName) ∧
    (extractIssueNumber n.subject.url ≠ "" → n.subject.type = "PullRequest" →
      openInBrowser n =
        BrowserTarget.prView (extractIssueNumber n.subject.url) n.repoName) ∧
    (openInBrowser n = BrowserTarget.repoView n.repoName ↔
      (extractIssueNumber n.subject.url = "" ∨
        (n.subject.type ≠ "Issue" ∧ n.subject.type ≠ "PullRequest"))) := by
  simp only [openInBrowser]
  split_ifs with h1 h2 h3
  · refine ⟨fun _ _ => rfl, fun _ hpr => absurd (h2 ▸ hpr) (by decide), ?_⟩
    constructor
    · intro h
      exact absurd h (by simp)
    · rintro (h | ⟨hi, _⟩)
      · exact absurd h h1
      · exact absurd h2 hi
  · refine ⟨fun _ hi => absurd (h3 ▸ hi) (by decide), fun _ _ => rfl, ?_⟩
    constructor
    · intro h
      exact absurd h (by simp)
    · rintro (h | ⟨_, hp⟩)
      · exact absurd h h1
      · exact absurd h3 hp
  · exact ⟨fun _ hi => absurd hi h2, fun _ hp => absurd hp h3,
      by simp [h1, h2, h3]⟩
  · have he : extractIssueNumber n.subject.url = "" := not_not.mp h1
    exact ⟨fun hne _ => absurd he hne, fun hne _ => absurd he hne,
      ⟨fun _ => Or.inl he, fun _ => rfl⟩⟩

def issueFortyTwo : Notification := sampleNotif "1"

def prSeven : Notification :=
  { id := "3"
    unread := false
    reason := "review_requested"
    repository := { fullName := "o/r" }
    subject := { type := "PullRequest", title := "p",
                 url := "https://api.github.com/repos/o/r/pulls/7" }
    updatedAt := 0 }

def releaseNote : Notification :=
  { id := "4"
    unread := false
    reason := "subscribed"
    repository := { fullName := "o/r" }
    subject := { type := "Release", title := "v1",
                 url := "https://api.github.com/repos/o/r/releases/9" }
    updatedAt := 0 }

theorem openInBrowser_target_witness :
    openInBrowser issueFortyTwo = BrowserTarget.issueView "42" "octo/repo" ∧
    openInBrowser prSeven = BrowserTarget.prView "7" "o/r" ∧
    openInBrowser releaseNote = BrowserTarget.repoView "o/r" := by
  refine ⟨?_, ?_, ?_⟩
  · have h := (openInBrowser_target_characterization issueFortyTwo).1
      (by decide) (by decide)
    rw [h]
    decide
  · have h := (openInBrowser_target_characterization prSeven).2.1
      (by decide) (by decide)
    rw [h]
    decide
  · exact (openInBrowser_target_characterization releaseNote).2.2.2
      (Or.inr (by decide))

def shortModel : Model :=
  { initialModel with
      notifications := [sampleNotif "1"]
      selectedIndex := 0
      loading := false
      terminalHeight := 8 }

/-- Claim C5 counterexample: with items non-empty and selectedIndex in
range but terminalHeight 8, the View windowing computes visibleHeight =
0, the list is "longer than the screen", and the window degenerates to
[0, 0): no row at all is rendered, so the selected row is not among the
rendered rows and the claim fails for this state. -/
theorem window_small_height_counterexample :
    shortModel.notifications ≠ [] ∧
    shortModel.selectedIndex = 0 ∧
    shortModel.selectedIndex < (shortModel.notifications.length : Int) ∧
    visibleRange shortModel = (0, 0) ∧
    viewRows shortModel = [] ∧
    shortModel.selectedIndex ∉ viewRows shortModel := by
  decide

lemma mem_viewRows (m : Model)
    (h1 : (visibleRange m).1 ≤ m.selectedIndex)
    (h2 : m.selectedIndex < (visibleRange m).2) :
    m.selectedIndex ∈ viewRows m := by
  simp only [viewRows]
  have hx : m.selectedIndex =
      (visibleRange m).1 +
        (((m.selectedIndex - (visibleRange m).1).toNat : Nat) : Int) := by
    omega
  have hmem : (m.selectedIndex - (visibleRange m).1).toNat ∈
      List.range ((visibleRange m).2 - (visibleRange m).1).toNat :=
    List.mem_range.mpr (by omega)
  rw [hx]
  exact List.mem_map_of_mem
    (fun k : Nat => (visibleRange m).1 + (k : Int)) hmem

/-- Claim C5 (amended): for every state with items non-empty,
selectedIndex in [0, len(items)-1], and at least one visible row
(terminalHeight at least 9, so visibleHeight = terminalHeight - 8 is
positive), the list window is clamped into [0, len(items)] and contains
selectedIndex, and the selected row is among the rendered rows; with
terminalHeight at most 8 the window can be empty and exclude the
selected row. -/
theorem window_contains_selected (m : Model)
    (hh : 9 ≤ m.terminalHeight)
    (_hne : m.notifications ≠ [])
    (h0 : 0 ≤ m.selectedIndex)
    (hlt : m.selectedIndex < (m.notifications.length : Int)) :
    0 ≤ (visibleRange m).1 ∧
    (visibleRange m).2 ≤ (m.notifications.length : Int) ∧
    (visibleRange m).1 ≤ m.selectedIndex ∧
    m.selectedIndex < (visibleRange m).2 ∧
    m.selectedIndex ∈ viewRows m := by
  have hdiv : Int.tdiv (m.terminalHeight - 8) 2 = (m.terminalHeight - 8) / 2 :=
    Int.tdiv_eq_ediv (by omega) (by omega)
  have key : 0 ≤ (visibleRange m).1 ∧
      (visibleRange m).2 ≤ (m.notifications.length : Int) ∧
      (visibleRange m).1 ≤ m.selectedIndex ∧
      m.selectedIndex < (visibleRange m).2 := by
    simp only [visibleRange, hdiv]
    split_ifs with hA hB <;> refine ⟨?_, ?_, ?_, ?_⟩ <;> simp only [] <;> omega
  exact ⟨key.1, key.2.1, key.2.2.1, key.2.2.2,
    mem_viewRows m key.2.2.1 key.2.2.2⟩

def pagedModel : Model :=
  { initialModel with
      notifications :=
        (List.range 20).map (fun i : Nat => sampleNotif (toString i))
      selectedIndex := 5
      loading := false
      terminalHeight := 10 }

theorem window_contains_selected_witness :
    0 ≤ (visibleRange pagedModel).1 ∧
    (visibleRange pagedModel).2 ≤ (pagedModel.notifications.length : Int) ∧
    (visibleRange pagedModel).1 ≤ pagedModel.selectedIndex ∧
    pagedModel.selectedIndex < (visibleRange pagedModel).2 ∧
    pagedModel.selectedIndex ∈ viewRows pagedModel :=
  window_contains_selected pagedModel (by decide) (by decide) (by decide)
    (by decide)
